import Mathlib

/-!
Verification of the Conversation Intelligence Pipeline of
`src/utils/fundraising_intelligence.py`.

The Python module is shallowly embedded: pure helper functions become Lean
functions over `List Char` / `String`, `Nat`, `Int` and `ℚ`; Python `dict`s
(which preserve insertion order) become association lists; `datetime`
timestamps become minutes since the Unix epoch (`Nat`); floats become exact
rationals; the two OpenAI calls (and the model's JSON reply) are abstracted as
function parameters returning `Except`, so theorems quantify over every
possible oracle behaviour.  Regex-based sanitization is embedded through a
small backtracking matcher whose patterns mirror the Python regexes item by
item, and `hashlib.md5` is embedded in full.
-/

namespace FundIntel

/-! ### Basic Python string-operation models -/

/-- Model of Python `str.lower()` (ASCII range, as in `Char.toLower`). -/
def pyLower (s : String) : String := String.mk (s.data.map Char.toLower)

/-- Characters stripped by Python `str.strip()` with no arguments. -/
def pyStripChars : List Char → List Char :=
  fun l => (l.dropWhile Char.isWhitespace).reverse.dropWhile Char.isWhitespace |>.reverse

/-- Model of Python `str.strip()`. -/
def pyStrip (s : String) : String := String.mk (pyStripChars s.data)

/-- Does `pre` occur at the start of `l`? -/
def leadsWith : List Char → List Char → Bool
  | [], _ => true
  | _ :: _, [] => false
  | p :: ps, x :: xs => p = x && leadsWith ps xs

/-- Does `needle` occur as a contiguous run inside `haystack`? -/
def occursIn (needle : List Char) : List Char → Bool
  | [] => leadsWith needle []
  | x :: xs => leadsWith needle (x :: xs) || occursIn needle xs

/-- Model of Python `needle in haystack` on strings. -/
def pyIn (needle haystack : String) : Bool := occursIn needle.data haystack.data

/-- One step of Python `str.replace` (all occurrences, left to right,
non-overlapping).  `fuel` bounds the scan length. -/
def replaceChars (fuel : Nat) (old new : List Char) (l : List Char) : List Char :=
  match fuel with
  | 0 => l
  | fuel + 1 =>
    match l with
    | [] => []
    | x :: xs =>
      if leadsWith old l then new ++ replaceChars fuel old new (l.drop old.length)
      else x :: replaceChars fuel old new xs

/-- Model of Python `str.replace(old, new)` for non-empty `old`. -/
def pyReplace (s old new : String) : String :=
  if old.data = [] then s
  else String.mk (replaceChars s.data.length old.data new.data s.data)

/-! ### MD5 (model of `hashlib.md5(...).hexdigest()`) -/

/-- Reduce modulo `2^32`. -/
def m32 (x : Nat) : Nat := x % 4294967296

/-- Bitwise complement on 32-bit words. -/
def mnot (x : Nat) : Nat := Nat.xor x 4294967295

/-- Left-rotate a 32-bit word by `n` bits. -/
def rotl (x n : Nat) : Nat := m32 ((x <<< n) + (x >>> (32 - n)))

/-- Per-round shift amounts of MD5. -/
def md5S : List Nat :=
  [7, 12, 17, 22, 7, 12, 17, 22, 7, 12, 17, 22, 7, 12, 17, 22,
   5, 9, 14, 20, 5, 9, 14, 20, 5, 9, 14, 20, 5, 9, 14, 20,
   4, 11, 16, 23, 4, 11, 16, 23, 4, 11, 16, 23, 4, 11, 16, 23,
   6, 10, 15, 21, 6, 10, 15, 21, 6, 10, 15, 21, 6, 10, 15, 21]

/-- Per-round sine-derived constants of MD5. -/
def md5K : List Nat :=
  [3614090360, 3905402710, 606105819, 3250441966, 4118548399, 1200080426,
   2821735955, 4249261313, 1770035416, 2336552879, 4294925233, 2304563134,
   1804603682, 4254626195, 2792965006, 1236535329, 4129170786, 3225465664,
   643717713, 3921069994, 3593408605, 38016083, 3634488961, 3889429448,
   568446438, 3275163606, 4107603335, 1163531501, 2850285829, 4243563512,
   1735328473, 2368359562, 4294588738, 2272392833, 1839030562, 4259657740,
   2763975236, 1272893353, 4139469664, 3200236656, 681279174, 3936430074,
   3572445317, 76029189, 3654602809, 3873151461, 530742520, 3299628645,
   4096336452, 1126891415, 2878612391, 4237533241, 1700485571, 2399980690,
   4293915773, 2240044497, 1873313359, 4264355552, 2734768916, 1309151649,
   4149444226, 3174756917, 718787259, 3951481745]

/-- The MD5 round function for round `i`. -/
def md5F (i b c d : Nat) : Nat :=
  if i < 16 then Nat.lor (Nat.land b c) (Nat.land (mnot b) d)
  else if i < 32 then Nat.lor (Nat.land d b) (Nat.land (mnot d) c)
  else if i < 48 then Nat.xor b (Nat.xor c d)
  else Nat.xor c (Nat.lor b (mnot d))

/-- The MD5 message-word index for round `i`. -/
def md5G (i : Nat) : Nat :=
  if i < 16 then i
  else if i < 32 then (5 * i + 1) % 16
  else if i < 48 then (3 * i + 5) % 16
  else (7 * i) % 16

/-- Little-endian 32-bit word number `i` of a 64-byte block. -/
def leWord (b : List Nat) (i : Nat) : Nat :=
  b.getD (4 * i) 0 + 256 * b.getD (4 * i + 1) 0 + 65536 * b.getD (4 * i + 2) 0 +
    16777216 * b.getD (4 * i + 3) 0

/-- MD5 compression of one 64-byte block. -/
def md5Block (st : Nat × Nat × Nat × Nat) (blk : List Nat) : Nat × Nat × Nat × Nat :=
  let (a0, b0, c0, d0) := st
  let fin := (List.range 64).foldl
    (fun (t : Nat × Nat × Nat × Nat) i =>
      let (a, b, c, d) := t
      let f := m32 (md5F i b c d + a + md5K.getD i 0 + leWord blk (md5G i))
      (d, m32 (b + rotl f (md5S.getD i 0)), b, c))
    (a0, b0, c0, d0)
  let (a, b, c, d) := fin
  (m32 (a0 + a), m32 (b0 + b), m32 (c0 + c), m32 (d0 + d))

/-- MD5 padding: a `1` bit, zeros, then the 64-bit little-endian bit length. -/
def md5Pad (msg : List Nat) : List Nat :=
  let padZeros := (119 - msg.length % 64) % 64
  msg ++ [128] ++ List.replicate padZeros 0 ++
    (List.range 8).map (fun i => (msg.length * 8) >>> (8 * i) % 256)

/-- Split a byte list into 64-byte blocks (`fuel` bounds the recursion). -/
def chunks64 (fuel : Nat) (l : List Nat) : List (List Nat) :=
  match fuel with
  | 0 => []
  | fuel + 1 =>
    match l with
    | [] => []
    | _ => l.take 64 :: chunks64 fuel (l.drop 64)

/-- Little-endian bytes of a 32-bit word. -/
def leBytes (w : Nat) : List Nat := [w % 256, w / 256 % 256, w / 65536 % 256, w / 16777216 % 256]

/-- The 16-byte MD5 digest of a byte list. -/
def md5Digest (msg : List Nat) : List Nat :=
  let padded := md5Pad msg
  let st := (chunks64 padded.length padded).foldl md5Block
    (1732584193, 4023233417, 2562383102, 271733878)
  let (a, b, c, d) := st
  leBytes a ++ leBytes b ++ leBytes c ++ leBytes d

/-- UTF-8 encoding of one character (model of Python `str.encode()`). -/
def utf8Bytes (c : Char) : List Nat :=
  let n := c.toNat
  if n < 128 then [n]
  else if n < 2048 then [192 + n / 64, 128 + n % 64]
  else if n < 65536 then [224 + n / 4096, 128 + n / 64 % 64, 128 + n % 64]
  else [240 + n / 262144, 128 + n / 4096 % 64, 128 + n / 64 % 64, 128 + n % 64]

/-- Hex digit character. -/
def hexChar (n : Nat) : Char := if n < 10 then Char.ofNat (48 + n) else Char.ofNat (87 + n)

/-- Model of Python `hashlib.md5(s.encode()).hexdigest()`. -/
def md5Hexdigest (s : String) : String :=
  String.mk (((md5Digest ((s.data.map utf8Bytes).flatten)).map
    (fun b => [hexChar (b / 16), hexChar (b % 16)])).flatten)

/-! ### A small regex engine

Each Python pattern used by `_anonymize_email_content` / `_extract_email` is a
disjunction of sequences of items, where an item is either a word-boundary
assertion or a character class with a counted greedy repetition.  The matcher
reproduces Python `re` semantics on these patterns: leftmost match position,
first alternative, greedy repetition with backtracking. -/

/-- One pattern item: a character class repeated between `lo` and `hi` times
(`hi = none` means unbounded), or a word-boundary assertion. -/
inductive RItem where
  | cls (p : Char → Bool) (lo : Nat) (hi : Option Nat)
  | bnd

/-- A pattern: alternatives (tried in order), each a sequence of items. -/
def RPattern := List (List RItem)

/-- Word character, as in Python's ASCII `\w`. -/
def wordChar (c : Char) : Bool := c.isAlphanum || c = '_'

/-- `\b` holds between `prev` and the head of `rest` (ends count as non-word). -/
def atBoundary (prev : Option Char) (rest : List Char) : Bool :=
  (match prev with | none => false | some c => wordChar c) !=
    (match rest with | [] => false | c :: _ => wordChar c)

/-- Length of the maximal prefix of `l` satisfying `p`. -/
def countRun (p : Char → Bool) : List Char → Nat
  | [] => 0
  | c :: cs => if p c then countRun p cs + 1 else 0

/-- Try repetition counts `lo + n, lo + n - 1, …, lo` (greedy order); `f` matches
the rest of the pattern after the consumed characters. -/
def tryCounts (f : Option Char → List Char → Option Nat) (prev : Option Char)
    (rest : List Char) (lo : Nat) : Nat → Option Nat
  | 0 =>
    match f (if lo = 0 then prev else (rest.take lo).getLast? ) (rest.drop lo) with
    | some m => some (lo + m)
    | none => none
  | n + 1 =>
    let k := lo + n + 1
    match f ((rest.take k).getLast?) (rest.drop k) with
    | some m => some (k + m)
    | none => tryCounts f prev rest lo n

/-- Match a sequence of items at the start of `rest` (with look-behind `prev`);
returns the number of characters consumed by the greedy leftmost match. -/
def matchItems : List RItem → Option Char → List Char → Option Nat
  | [], _, _ => some 0
  | .bnd :: items, prev, rest =>
    if atBoundary prev rest then matchItems items prev rest else none
  | .cls p lo hi :: items, prev, rest =>
    let run := countRun p rest
    let top := match hi with | none => run | some h => min h run
    if top < lo then none
    else tryCounts (matchItems items) prev rest lo (top - lo)

/-- First alternative of `pat` matching at this position. -/
def matchAlts (pat : RPattern) (prev : Option Char) (rest : List Char) : Option Nat :=
  match pat with
  | [] => none
  | alt :: alts =>
    match matchItems alt prev rest with
    | some n => some n
    | none => matchAlts alts prev rest

/-- Scan: collect all (leftmost, non-overlapping) matches, as `re.findall`. -/
def findAux (pat : RPattern) (fuel : Nat) (prev : Option Char) (rest : List Char) :
    List (List Char) :=
  match fuel with
  | 0 => []
  | fuel + 1 =>
    match rest with
    | [] => []
    | c :: cs =>
      match matchAlts pat prev rest with
      | some (n + 1) =>
        (rest.take (n + 1)) :: findAux pat fuel ((rest.take (n + 1)).getLast?) (rest.drop (n + 1))
      | _ => findAux pat fuel (some c) cs

/-- Model of Python `re.findall(pat, s)` (patterns without groups). -/
def reFindall (pat : RPattern) (s : String) : List String :=
  (findAux pat s.data.length none s.data).map String.mk

/-- Scan: first match, as `re.search(pat, s).group()`. -/
def searchAux (pat : RPattern) (fuel : Nat) (prev : Option Char) (rest : List Char) :
    Option (List Char) :=
  match fuel with
  | 0 => none
  | fuel + 1 =>
    match rest with
    | [] => none
    | c :: cs =>
      match matchAlts pat prev rest with
      | some n => some (rest.take n)
      | none => searchAux pat fuel (some c) cs

/-- Model of `re.search(pat, s)`, returning the matched text if any. -/
def reSearch (pat : RPattern) (s : String) : Option String :=
  (searchAux pat s.data.length none s.data).map String.mk

/-- Scan: replace every match by the constant `repl`, as `re.sub(pat, repl, s)`. -/
def subAux (pat : RPattern) (repl : List Char) (fuel : Nat) (prev : Option Char)
    (rest : List Char) : List Char :=
  match fuel with
  | 0 => rest
  | fuel + 1 =>
    match rest with
    | [] => []
    | c :: cs =>
      match matchAlts pat prev rest with
      | some (n + 1) =>
        repl ++ subAux pat repl fuel ((rest.take (n + 1)).getLast?) (rest.drop (n + 1))
      | _ => c :: subAux pat repl fuel (some c) cs

/-- Model of Python `re.sub(pat, repl, s)` for a constant replacement. -/
def reSubConst (pat : RPattern) (repl : String) (s : String) : String :=
  String.mk (subAux pat repl.data s.data.length none s.data)

/-- Scan: the runs of unmatched text between consecutive matches. -/
def gapsAux (pat : RPattern) (fuel : Nat) (prev : Option Char) (rest : List Char) :
    List (List Char) :=
  match fuel with
  | 0 => [rest]
  | fuel + 1 =>
    match rest with
    | [] => [[]]
    | c :: cs =>
      match matchAlts pat prev rest with
      | some (n + 1) =>
        [] :: gapsAux pat fuel ((rest.take (n + 1)).getLast?) (rest.drop (n + 1))
      | _ =>
        match gapsAux pat fuel (some c) cs with
        | [] => [[c]]
        | g :: gs => (c :: g) :: gs

/-- The list of unmatched segments of `s` around the matches of `pat`:
`reSubConst` rebuilds the string from exactly these segments. -/
def matchGaps (pat : RPattern) (s : String) : List String :=
  (gapsAux pat s.data.length none s.data).map String.mk

/-! ### The concrete patterns of `fundraising_intelligence.py` -/

/-- Single-character class. -/
def one (c : Char) : RItem := .cls (fun x => x = c) 1 (some 1)

/-- Character class from an explicit list. -/
def anyOf (l : List Char) : RItem := .cls (fun x => l.contains x) 1 (some 1)

/-- `[A-Za-z0-9._%+-]` of the sanitizer's email regex. -/
def emailLocalChar (c : Char) : Bool :=
  c.isAlphanum || c = '.' || c = '_' || c = '%' || c = '+' || c = '-'

/-- `[A-Za-z0-9.-]` of the sanitizer's email regex. -/
def emailDomChar (c : Char) : Bool := c.isAlphanum || c = '.' || c = '-'

/-- `[A-Z|a-z]` of the sanitizer's email regex (the `|` is literal). -/
def emailTldChar (c : Char) : Bool := c.isAlpha || c = '|'

/-- `\b[A-Za-z0-9._%+-]+@[A-Za-z0-9.-]+\.[A-Z|a-z]{2,}\b`. -/
def emailAnonPat : RPattern :=
  [[.bnd, .cls emailLocalChar 1 none, one '@', .cls emailDomChar 1 none, one '.',
    .cls emailTldChar 2 none, .bnd]]

/-- `[\w\.-]` of `_extract_email`'s regex. -/
def extractWordChar (c : Char) : Bool := wordChar c || c = '.' || c = '-'

/-- `[\w\.-]+@[\w\.-]+\.\w+` of `_extract_email`. -/
def emailExtractPat : RPattern :=
  [[.cls extractWordChar 1 none, one '@', .cls extractWordChar 1 none, one '.',
    .cls wordChar 1 none]]

/-- `\b\d{3}[-.]?\d{3}[-.]?\d{4}\b` (US phone format). -/
def phonePat1 : RPattern :=
  [[.bnd, .cls Char.isDigit 3 (some 3), .cls (fun c => c = '-' || c = '.') 0 (some 1),
    .cls Char.isDigit 3 (some 3), .cls (fun c => c = '-' || c = '.') 0 (some 1),
    .cls Char.isDigit 4 (some 4), .bnd]]

/-- `\b\(\d{3}\)\s?\d{3}[-.]?\d{4}\b` ((123) 456-7890 format). -/
def phonePat2 : RPattern :=
  [[.bnd, one '(', .cls Char.isDigit 3 (some 3), one ')', .cls Char.isWhitespace 0 (some 1),
    .cls Char.isDigit 3 (some 3), .cls (fun c => c = '-' || c = '.') 0 (some 1),
    .cls Char.isDigit 4 (some 4), .bnd]]

/-- `\b\+\d{1,3}[-.\s]?\d{1,4}[-.\s]?\d{1,4}[-.\s]?\d{1,9}\b` (international). -/
def phonePat3 : RPattern :=
  [[.bnd, one '+', .cls Char.isDigit 1 (some 3),
    .cls (fun c => c = '-' || c = '.' || c.isWhitespace) 0 (some 1), .cls Char.isDigit 1 (some 4),
    .cls (fun c => c = '-' || c = '.' || c.isWhitespace) 0 (some 1), .cls Char.isDigit 1 (some 4),
    .cls (fun c => c = '-' || c = '.' || c.isWhitespace) 0 (some 1), .cls Char.isDigit 1 (some 9),
    .bnd]]

/-- `[^\s<>"\']` of the URL regex. -/
def urlChar (c : Char) : Bool :=
  !(c.isWhitespace || c = '<' || c = '>' || c = '"' || c = Char.ofNat 39)

/-- `https?://[^\s<>"\']+|www\.[^\s<>"\']+\.[^\s<>"\']+`. -/
def urlPat : RPattern :=
  [[one 'h', one 't', one 't', one 'p', .cls (fun c => c = 's') 0 (some 1), one ':', one '/',
    one '/', .cls urlChar 1 none],
   [one 'w', one 'w', one 'w', one '.', .cls urlChar 1 none, one '.', .cls urlChar 1 none]]

/-- Literal text as a pattern-item sequence. -/
def lits (s : String) : List RItem := s.data.map one

/-- `\n--\s*\n.*` with `re.DOTALL`. -/
def sigPat1 : RPattern :=
  [[one (Char.ofNat 10), one '-', one '-', .cls Char.isWhitespace 0 none, one (Char.ofNat 10),
    .cls (fun _ => true) 0 none]]

/-- `\nBest regards,.*` with `re.DOTALL`. -/
def sigPat2 : RPattern := [lits "\nBest regards," ++ [.cls (fun _ => true) 0 none]]

/-- `\nSincerely,.*` with `re.DOTALL`. -/
def sigPat3 : RPattern := [lits "\nSincerely," ++ [.cls (fun _ => true) 0 none]]

/-- `\nThanks,.*` with `re.DOTALL`. -/
def sigPat4 : RPattern := [lits "\nThanks," ++ [.cls (fun _ => true) 0 none]]

/-! ### `_anonymize_email_content` -/

/-- Lookup in an association list (model of Python `dict` access order). -/
def alistGet? {β : Type} (m : List (String × β)) (k : String) : Option β :=
  match m with
  | [] => none
  | (k', v) :: rest => if k' = k then some v else alistGet? rest k

/-- The placeholder the sanitizer derives for an email address:
`"[EMAIL_" + md5(email)[:6] + "]"`. -/
def emailPlaceholder (email : String) : String :=
  "[EMAIL_" ++ String.mk ((md5Hexdigest email).data.take 6) ++ "]"

/-- One iteration of the sanitizer's email loop: if the address is new, bind
it to its hash placeholder at the end of the map; then replace all its
occurrences in the text by its placeholder. -/
def anonStep (acc : List (String × String) × String) (email : String) :
    List (String × String) × String :=
  let m := if (alistGet? acc.1 email).isSome then acc.1
    else acc.1 ++ [(email, emailPlaceholder email)]
  (m, pyReplace acc.2 email ((alistGet? m email).getD ""))

/-- The three phone substitutions, in source order, each replacing matches by
the fixed constant `[PHONE_NUMBER]`. -/
def phoneStages (s : String) : String :=
  reSubConst phonePat3 "[PHONE_NUMBER]"
    (reSubConst phonePat2 "[PHONE_NUMBER]" (reSubConst phonePat1 "[PHONE_NUMBER]" s))

/-- The four signature substitutions, in source order. -/
def sigStages (s : String) : String :=
  reSubConst sigPat4 "\n[EMAIL_SIGNATURE]"
    (reSubConst sigPat3 "\n[EMAIL_SIGNATURE]"
      (reSubConst sigPat2 "\n[EMAIL_SIGNATURE]" (reSubConst sigPat1 "\n[EMAIL_SIGNATURE]" s)))

/-- Model of `_anonymize_email_content(content, email_map)`: returns the updated
map together with the sanitized text (the Python version mutates `email_map`
in place).  Emails found are replaced through the shared map, then the phone
patterns, the URL pattern and the signature patterns are substituted by their
fixed constants, in source order. -/
def anonymizeEmailContent (content : String) (emailMap : List (String × String)) :
    List (String × String) × String :=
  if content = "" then (emailMap, content)
  else
    let emailsFound := reFindall emailAnonPat content
    let step := emailsFound.foldl anonStep (emailMap, content)
    (step.1, sigStages (reSubConst urlPat "[URL_LINK]" (phoneStages step.2)))


/-! ### Data model

Timestamps are minutes since the Unix epoch (the Python code uses naive
`datetime` values at minute granularity in every computation the claims
touch).  1970-01-01 was a Thursday. -/

/-- Hour of day of a timestamp (model of `datetime.hour`). -/
def hourOf (t : Nat) : Nat := t / 60 % 24

/-- Lower-cased English weekday name (model of `strftime("%A").lower()`). -/
def dayNameOf (t : Nat) : String :=
  ["thursday", "friday", "saturday", "sunday", "monday", "tuesday", "wednesday"].getD
    (t / 1440 % 7) ""

/-- `EmailMetadata` (the fields the pipeline stages read). -/
structure EmailMetadata where
  message_id : String
  thread_id : String
  sender : String
  recipient : String
  timestamp : Nat
  is_reply : Bool
  subject : String
  body_content : String
  snippet : String
  cc : String
  is_outbound : Bool
deriving DecidableEq, Repr

/-- `InvestorContext` (the dataclass, with `None` as `Option`). -/
structure InvestorContext where
  email : String
  name : String := ""
  firm : String := ""
  last_contact_date : Option Nat := none
  relationship_stage : String := "unknown"
  sentiment_trend : String := "neutral"
  response_time_avg : Option ℚ := none
  key_interests : List String := []
  objections_raised : List String := []
  questions_asked : List String := []
  materials_shared : List String := []
  next_action_suggested : String := ""
  defer_until : Option Nat := none
  total_emails_sent : Nat := 0
  total_replies_received : Nat := 0
  last_reply_sentiment : String := "neutral"
  conversation_summary : String := ""
deriving DecidableEq, Repr

/-- `CampaignStrategy` (the dataclass).  `recommended_timing` is a rational
number of minutes since the epoch (`timedelta(days=0.25)` is fractional). -/
structure CampaignStrategy where
  investor_email : String
  strategy_type : String
  recommended_timing : ℚ
  email_draft : String
  linkedin_message : String := ""
  reasoning : String := ""
  confidence_score : ℚ := 0
  channel_sequence : List String := ["email"]
  expected_response_rate : ℚ := 0
deriving DecidableEq, Repr

/-- One entry of `state.timing_patterns` (the per-investor dict built by
`_extract_timing_patterns_node`). -/
structure TimingProfile where
  preferred_hour : Nat
  preferred_day : String
  avg_response_hours : ℚ
  total_replies : Nat
  response_rate : ℚ
  timezone : String
deriving DecidableEq, Repr

/-- `state.strategy_effectiveness` as built by
`_analyze_strategy_effectiveness_node`. -/
structure Effectiveness where
  overall_reply_rate : ℚ := 0
  total_conversations : Nat := 0
  active_conversations : Nat := 0
  positive_sentiment_rate : ℚ := 0
deriving DecidableEq, Repr

/-- The JSON object parsed from the conversation-analysis oracle reply; a key
absent from the reply is `none` (the code reads every key with `.get` and a
default).  An oracle failure or an unparsable reply behaves as the empty
object. -/
structure Analysis where
  name : Option String := none
  firm : Option String := none
  relationship_stage : Option String := none
  sentiment_trend : Option String := none
  key_interests : Option (List String) := none
  objections_raised : Option (List String) := none
  questions_asked : Option (List String) := none
  materials_shared : Option (List String) := none
  next_action_suggested : Option String := none
  last_reply_sentiment : Option String := none
  conversation_summary : Option String := none
deriving DecidableEq, Repr

/-- The JSON object parsed from the strategy-generation oracle reply. -/
structure StrategyResult where
  email_draft : Option String := none
  linkedin_message : Option String := none
  reasoning : Option String := none
  expected_response_rate : Option ℚ := none
  channel_sequence : Option (List String) := none
  optimal_timing : Option String := none
  personalization_score : Option ℚ := none
deriving DecidableEq, Repr

/-- `FundraisingState` (the LangGraph state dataclass; the raw-email list is
omitted — the embedded pipeline starts from parsed `EmailMetadata`). -/
structure FundraisingState where
  mailbox : String := ""
  user_email : String := ""
  company_context : String := ""
  time_window_days : Nat := 30
  email_metadata : List EmailMetadata := []
  thread_groups : List (String × List EmailMetadata) := []
  investor_contexts : List (String × InvestorContext) := []
  timing_patterns : List (String × TimingProfile) := []
  strategy_effectiveness : Effectiveness := {}
  campaign_strategies : List CampaignStrategy := []
  retrospective_report : String := ""
  current_step : String := ""
  errors : List String := []
deriving Repr

/-! ### Pipeline stage functions -/

/-- `_extract_email`: clean email address out of a header field. -/
def extractEmail (emailField : String) : String :=
  if emailField = "" then ""
  else
    match reSearch emailExtractPat emailField with
    | some m => pyLower m
    | none => pyStrip (pyLower emailField)

/-- Append `e` to the group of key `k`, creating the group at the end on first
use (model of insertion-ordered `dict` update). -/
def alistAppend (m : List (String × List EmailMetadata)) (k : String) (e : EmailMetadata) :
    List (String × List EmailMetadata) :=
  match m with
  | [] => [(k, [e])]
  | (k', es) :: rest => if k' = k then (k', es ++ [e]) :: rest else (k', es) :: alistAppend rest k e

/-- Stable insertion into a timestamp-sorted list (used to model Python's
stable `sort`/`sorted` with `key=lambda x: x.timestamp`). -/
def insertByTime (e : EmailMetadata) : List EmailMetadata → List EmailMetadata
  | [] => [e]
  | x :: xs => if x.timestamp < e.timestamp then x :: insertByTime e xs else e :: x :: xs

/-- Model of Python's stable ascending sort by timestamp. -/
def sortByTime : List EmailMetadata → List EmailMetadata
  | [] => []
  | x :: xs => insertByTime x (sortByTime xs)

/-- The counterparty identity a message is filed under: the extracted
recipient when the user sent it (user address occurs in the sender header,
case-insensitively), the extracted sender otherwise. -/
def derivedKey (userEmail : String) (email : EmailMetadata) : String :=
  if pyIn (pyLower userEmail) (pyLower email.sender) then extractEmail email.recipient
  else extractEmail email.sender

/-- The loop body of `_group_threads_node`: file one message under its derived
counterparty unless that identity is empty or is the operator's own
(lower-cased) address. -/
def groupStep (u : String) (gs : List (String × List EmailMetadata)) (email : EmailMetadata) :
    List (String × List EmailMetadata) :=
  let investorEmail := derivedKey u email
  if investorEmail ≠ "" ∧ investorEmail ≠ pyLower u then alistAppend gs investorEmail email
  else gs

/-- `_group_threads_node`: group messages by counterparty identity. -/
def groupThreadsNode (st : FundraisingState) : FundraisingState :=
  let groups := st.email_metadata.foldl (groupStep st.user_email) []
  { st with
    thread_groups := groups.map (fun kv => (kv.1, sortByTime kv.2)),
    current_step := "grouping_threads" }

/-- Reply-latency samples over adjacent pairs of a sorted message list: hours
elapsed between each message from the user and an immediately following
message not from the user. -/
def responsePairs (userEmail : String) : List EmailMetadata → List ℚ
  | [] => []
  | [_] => []
  | cur :: next :: rest =>
    if pyIn (pyLower userEmail) (pyLower cur.sender) ∧
        ¬ pyIn (pyLower userEmail) (pyLower next.sender) then
      (((next.timestamp : ℤ) - (cur.timestamp : ℤ) : ℤ) : ℚ) * 60 / 3600 ::
        responsePairs userEmail (next :: rest)
    else responsePairs userEmail (next :: rest)

/-- `_calculate_response_times` (the later definition in the class, which
shadows the earlier one): sort by timestamp, then walk adjacent pairs. -/
def calculateResponseTimes (emails : List EmailMetadata) (userEmail : String) : List ℚ :=
  responsePairs userEmail (sortByTime emails)

/-- Keep the first occurrence of each element (iteration order of the values
of `set(xs)` is modelled as first-occurrence order). -/
def dedupKeepFirst {α : Type} [DecidableEq α] (xs : List α) : List α :=
  xs.foldl (fun acc x => if x ∈ acc then acc else acc ++ [x]) []

/-- Model of Python `max(set(xs), key=xs.count)` (between tied counts, the
first value encountered wins). -/
def pyMaxByCount {α : Type} [DecidableEq α] (xs : List α) : Option α :=
  match dedupKeepFirst xs with
  | [] => none
  | y :: ys => some (ys.foldl (fun best x => if xs.count x > xs.count best then x else best) y)

/-- The per-investor timing dict built inside `_extract_timing_patterns_node`. -/
def timingPatternFor (userEmail tz : String) (emails : List EmailMetadata) : TimingProfile :=
  let replySamples := emails.filter (fun e => ! pyIn (pyLower userEmail) (pyLower e.sender))
  let replyTimes := replySamples.map (fun e => hourOf e.timestamp)
  let replyDays := replySamples.map (fun e => dayNameOf e.timestamp)
  let mostCommonHour := (pyMaxByCount replyTimes).getD 10
  let mostCommonDay := (pyMaxByCount replyDays).getD "tuesday"
  let responseTimes := calculateResponseTimes emails userEmail
  let avgResponseHours : ℚ :=
    if responseTimes.length = 0 then 24 else responseTimes.sum / responseTimes.length
  { preferred_hour := mostCommonHour
    preferred_day := mostCommonDay
    avg_response_hours := avgResponseHours
    total_replies := replyTimes.length
    response_rate := if emails.length = 0 then 0 else (replyTimes.length : ℚ) / emails.length
    timezone := tz }

/-- `_extract_timing_patterns_node`. -/
def extractTimingPatternsNode (tz : String) (st : FundraisingState) : FundraisingState :=
  { st with
    timing_patterns := st.thread_groups.map
      (fun kv => (kv.1, timingPatternFor st.user_email tz kv.2)),
    current_step := "extracting_timing_patterns" }

/-- The `{}` returned by `_analyze_investor_conversation` on an oracle failure
or an unparsable reply. -/
def analysisOf : Except String Analysis → Analysis
  | .ok a => a
  | .error _ => {}

/-- The `InvestorContext` built for one conversation by
`_analyze_conversations_node`. -/
def buildContext (userEmail investor : String) (emails : List EmailMetadata)
    (analysis : Analysis) : InvestorContext :=
  let sentCount := (emails.filter (fun e => pyIn (pyLower userEmail) (pyLower e.sender))).length
  let replyCount := (emails.filter (fun e => ! pyIn (pyLower userEmail) (pyLower e.sender))).length
  let responseTimes := calculateResponseTimes emails userEmail
  let avgResponseTime : Option ℚ :=
    if responseTimes.length = 0 then none else some (responseTimes.sum / responseTimes.length)
  { email := investor
    name := analysis.name.getD ""
    firm := analysis.firm.getD ""
    last_contact_date := emails.getLast?.map EmailMetadata.timestamp
    relationship_stage := analysis.relationship_stage.getD "unknown"
    sentiment_trend := analysis.sentiment_trend.getD "neutral"
    response_time_avg := avgResponseTime
    key_interests := analysis.key_interests.getD []
    objections_raised := analysis.objections_raised.getD []
    questions_asked := analysis.questions_asked.getD []
    materials_shared := analysis.materials_shared.getD []
    next_action_suggested := analysis.next_action_suggested.getD ""
    total_emails_sent := sentCount
    total_replies_received := replyCount
    last_reply_sentiment := analysis.last_reply_sentiment.getD "neutral"
    conversation_summary := analysis.conversation_summary.getD "" }

/-- `_analyze_conversations_node`.  The oracle call (prompt construction, the
OpenAI request, and JSON extraction) is abstracted as `oracleA`, indexed by
the counterparty; `_analyze_investor_conversation` swallows every failure and
returns `{}`, so the node appends nothing to the error list. -/
def analyzeConversationsNode (oracleA : String → Except String Analysis)
    (st : FundraisingState) : FundraisingState :=
  { st with
    investor_contexts := st.thread_groups.map
      (fun kv => (kv.1, buildContext st.user_email kv.1 kv.2 (analysisOf (oracleA kv.1)))),
    current_step := "analyzing_conversations" }

/-- `_analyze_strategy_effectiveness_node`. -/
def analyzeStrategyEffectivenessNode (st : FundraisingState) : FundraisingState :=
  let totalSent : Nat := (st.investor_contexts.map (fun kv => kv.2.total_emails_sent)).sum
  let totalReplies : Nat :=
    (st.investor_contexts.map (fun kv => kv.2.total_replies_received)).sum
  { st with
    strategy_effectiveness :=
      { overall_reply_rate := if totalSent > 0 then (totalReplies : ℚ) / (totalSent : ℚ) else 0
        total_conversations := st.investor_contexts.length
        active_conversations := (st.investor_contexts.filter
          (fun kv => kv.2.relationship_stage ∈ (["warm", "engaged", "interested"] : List String))).length
        positive_sentiment_rate :=
          if st.investor_contexts.length = 0 then 0
          else ((st.investor_contexts.filter
            (fun kv => kv.2.sentiment_trend = "positive")).length : ℚ) /
              (st.investor_contexts.length : ℚ) }
    current_step := "analyzing_strategy_effectiveness" }

/-- `_determine_strategy_type`. -/
def determineStrategyType (context : InvestorContext) : String :=
  if context.relationship_stage = "deferred" ∧ context.defer_until.isSome then "follow_up"
  else if context.relationship_stage ∈ (["cold", "unknown"] : List String) then "cold_outreach"
  else if context.relationship_stage = "declined" then "re_engagement"
  else if context.total_replies_received = 0 ∧ context.total_emails_sent > 0 then "re_engagement"
  else if context.relationship_stage ∈ (["warm", "engaged", "interested"] : List String) then
    "milestone_update"
  else "follow_up"

/-- `timing_map.get(result.get("optimal_timing", "within_24h"), 1)`. -/
def timingMapGet (optimalTiming : Option String) : ℚ :=
  let key := optimalTiming.getD "within_24h"
  if key = "immediate" then 0
  else if key = "within_6h" then 1 / 4
  else if key = "within_24h" then 1
  else if key = "within_week" then 7
  else 1

/-- `_generate_investor_strategy`.  `now` is `datetime.now()` in minutes; the
oracle call and JSON extraction are abstracted as the `Except` argument (an
exception or a reply with no JSON object both yield `none` — the Python code
prints and returns `None`).  Note that the `days_since_contact` timing is
computed and then unconditionally overwritten by the `timing_map` timing,
exactly as in the source. -/
def generateInvestorStrategy (now : Nat) (context : InvestorContext)
    (oracleRes : Except String StrategyResult) : Option CampaignStrategy :=
  let strategyType := determineStrategyType context
  match oracleRes with
  | .error _ => none
  | .ok result =>
    let _recommendedTiming : ℚ := (now : ℚ) + 1440
    let _recommendedTiming : ℚ :=
      match context.last_contact_date with
      | none => _recommendedTiming
      | some lastContact =>
        let daysSinceContact := Int.fdiv ((now : ℤ) - (lastContact : ℤ)) 1440
        if daysSinceContact < 7 then (now : ℚ) + 1440 * (7 - (daysSinceContact : ℚ))
        else _recommendedTiming
    let timingDays := timingMapGet result.optimal_timing
    let recommendedTiming : ℚ := (now : ℚ) + 1440 * timingDays
    some
      { investor_email := context.email
        strategy_type := strategyType
        recommended_timing := recommendedTiming
        email_draft := result.email_draft.getD ""
        linkedin_message := result.linkedin_message.getD ""
        reasoning := result.reasoning.getD ""
        confidence_score := result.personalization_score.getD 8 / 10
        channel_sequence := result.channel_sequence.getD ["email"]
        expected_response_rate := result.expected_response_rate.getD (3 / 10) }

/-- `_generate_campaign_strategies_node`: one strategy per context when the
oracle call succeeds; a failed call contributes nothing (and, as in
`_generate_investor_strategy`, no error entry). -/
def generateCampaignStrategiesNode (oracleS : String → Except String StrategyResult)
    (now : Nat) (st : FundraisingState) : FundraisingState :=
  { st with
    campaign_strategies := st.investor_contexts.filterMap
      (fun kv => generateInvestorStrategy now kv.2 (oracleS kv.1)),
    current_step := "generating_campaign_strategies" }

/-- `_generate_retrospective_node` / `_generate_comprehensive_report`: exactly
one analyzed counterparty selects the single-relationship report, otherwise
the portfolio report; a failed oracle call degrades to an error-annotated stub
string in either branch. -/
def generateRetrospectiveNode (oracleR : Except String String) (st : FundraisingState) :
    FundraisingState :=
  let report :=
    if st.investor_contexts.length = 1 then
      match oracleR with
      | .ok text => text
      | .error e =>
        "INVESTOR RELATIONSHIP REPORT\n============================\n\nError generating report: "
          ++ e
    else
      match oracleR with
      | .ok text => text
      | .error e => "# Fundraising Retrospective Report\n\n**Error generating report:** " ++ e
  { st with retrospective_report := report, current_step := "generating_retrospective" }

/-- The orchestrator from `group_threads` to the terminal node, as wired by
`_build_workflow` (the `fetch_emails` node, which talks to the mail source, is
the pipeline's entry and supplies `email_metadata`). -/
def runPipeline (oracleA : String → Except String Analysis)
    (oracleS : String → Except String StrategyResult) (oracleR : Except String String)
    (tz : String) (now : Nat) (st : FundraisingState) : FundraisingState :=
  generateRetrospectiveNode oracleR
    (generateCampaignStrategiesNode oracleS now
      (analyzeStrategyEffectivenessNode
        (extractTimingPatternsNode tz
          (analyzeConversationsNode oracleA
            (groupThreadsNode st)))))

/-! ### Helper lemmas -/

theorem toNat_ofNat_of_valid {n : Nat} (h : n < 55296) : (Char.ofNat n).toNat = n := by
  unfold Char.ofNat
  rw [dif_pos (Or.inl h)]
  unfold Char.ofNatAux
  simp [Char.toNat, UInt32.ofNat', UInt32.toNat]

theorem charToLower_idem (c : Char) : c.toLower.toLower = c.toLower := by
  unfold Char.toLower
  by_cases h : 65 ≤ c.toNat ∧ c.toNat ≤ 90
  · rw [if_pos h]
    have hv : (Char.ofNat (c.toNat + 32)).toNat = c.toNat + 32 :=
      toNat_ofNat_of_valid (by omega)
    rw [if_neg (by omega)]
  · rw [if_neg h, if_neg h]

theorem map_toLower_fixed {l : List Char} (h : ∀ c ∈ l, c.toLower = c) :
    l.map Char.toLower = l := by
  induction l with
  | nil => rfl
  | cons x xs ih =>
    simp only [List.map_cons, h x (List.mem_cons_self x xs)]
    rw [ih (fun c hc => h c (List.mem_cons_of_mem x hc))]

theorem pyLower_idem (s : String) : pyLower (pyLower s) = pyLower s := by
  simp only [pyLower]
  congr 1
  exact map_toLower_fixed (by
    intro c hc
    simp only [List.mem_map] at hc
    obtain ⟨d, _, hd⟩ := hc
    rw [← hd]
    exact charToLower_idem d)

theorem mem_pyStripChars {c : Char} {l : List Char} (h : c ∈ pyStripChars l) : c ∈ l := by
  simp only [pyStripChars] at h
  rw [List.mem_reverse] at h
  have h1 := (List.dropWhile_sublist Char.isWhitespace).mem h
  rw [List.mem_reverse] at h1
  exact (List.dropWhile_sublist Char.isWhitespace).mem h1

theorem pyLower_pyStrip_pyLower (s : String) :
    pyLower (pyStrip (pyLower s)) = pyStrip (pyLower s) := by
  simp only [pyLower, pyStrip]
  congr 1
  apply map_toLower_fixed
  intro c hc
  have := mem_pyStripChars hc
  simp only [List.mem_map] at this
  obtain ⟨d, _, hd⟩ := this
  rw [← hd]
  exact charToLower_idem d

theorem pyLower_empty : pyLower "" = "" := rfl

theorem extractEmail_empty : extractEmail "" = "" := rfl

theorem pyLower_extractEmail (f : String) : pyLower (extractEmail f) = extractEmail f := by
  unfold extractEmail
  by_cases hf : f = ""
  · rw [if_pos hf]; rfl
  · rw [if_neg hf]
    cases h : reSearch emailExtractPat f with
    | some m => exact pyLower_idem m
    | none => exact pyLower_pyStrip_pyLower f

theorem mem_insertByTime {a e : EmailMetadata} {l : List EmailMetadata} :
    a ∈ insertByTime e l ↔ a = e ∨ a ∈ l := by
  induction l with
  | nil => simp [insertByTime]
  | cons x xs ih =>
    simp only [insertByTime]
    split
    · simp only [List.mem_cons, ih]
      tauto
    · simp [List.mem_cons]

theorem mem_sortByTime {a : EmailMetadata} {l : List EmailMetadata} :
    a ∈ sortByTime l ↔ a ∈ l := by
  induction l with
  | nil => simp [sortByTime]
  | cons x xs ih =>
    simp only [sortByTime, mem_insertByTime, List.mem_cons, ih]

theorem responsePairs_eq_nil {u : String} {l : List EmailMetadata}
    (h : ∀ e ∈ l, pyIn (pyLower u) (pyLower e.sender) = true) : responsePairs u l = [] := by
  induction l with
  | nil => rfl
  | cons x xs ih =>
    cases xs with
    | nil => rfl
    | cons y ys =>
      have hy : pyIn (pyLower u) (pyLower y.sender) = true :=
        h y (List.mem_cons_of_mem x (List.mem_cons_self y ys))
      simp only [responsePairs, hy]
      rw [if_neg (by simp [hy])]
      exact ih (fun e he => h e (List.mem_cons_of_mem x he))

/-! ### Claim C5 -/

/-- The outbound message of the C5 scenario: sent by the operator at 9:00 on a
Monday (1970-01-05). -/
def c5out : EmailMetadata :=
  { message_id := "m1", thread_id := "t1", sender := "me@y.com", recipient := "a@x.com",
    timestamp := 4 * 1440 + 9 * 60, is_reply := false, subject := "intro",
    body_content := "hello", snippet := "hello", cc := "", is_outbound := true }

/-- The inbound reply of the C5 scenario: received at 11:00 the same Monday. -/
def c5in : EmailMetadata :=
  { message_id := "m2", thread_id := "t1", sender := "a@x.com", recipient := "me@y.com",
    timestamp := 4 * 1440 + 11 * 60, is_reply := true, subject := "Re: intro",
    body_content := "thanks", snippet := "thanks", cc := "", is_outbound := false }

/-- Claim C5: for the two-message group (outbound hour 9 Monday, inbound reply
hour 11 the same Monday, counterparty a@x.com, operator me@y.com), the timing
extractor produces preferred hour 11, preferred day "monday", average response
latency 2.0 hours, total reply count 1 and response rate 0.5. -/
theorem C5_two_message_scenario :
    timingPatternFor "me@y.com" "UTC" [c5out, c5in] =
      { preferred_hour := 11, preferred_day := "monday", avg_response_hours := 2,
        total_replies := 1, response_rate := 1 / 2, timezone := "UTC" } := by
  with_unfolding_all rfl

/-! ### Claim C6 -/

/-- Claim C6: a conversation group with no inbound replies (every message's
sender contains the operator address; in particular the empty group) yields the
default timing profile — hour 10, day "tuesday", 24h latency, 0 replies — and
response rate 0, with no exception (the function is total). -/
theorem C6_no_reply_defaults (userEmail tz : String) (emails : List EmailMetadata)
    (h : ∀ e ∈ emails, pyIn (pyLower userEmail) (pyLower e.sender) = true) :
    timingPatternFor userEmail tz emails =
      { preferred_hour := 10, preferred_day := "tuesday", avg_response_hours := 24,
        total_replies := 0, response_rate := 0, timezone := tz } := by
  have hfilter : emails.filter (fun e => ! pyIn (pyLower userEmail) (pyLower e.sender)) = [] := by
    rw [List.filter_eq_nil_iff]
    intro e he
    simp [h e he]
  have hrts : calculateResponseTimes emails userEmail = [] := by
    unfold calculateResponseTimes
    exact responsePairs_eq_nil (fun e he => h e (mem_sortByTime.mp he))
  unfold timingPatternFor
  rw [hfilter, hrts]
  simp only [List.map_nil, List.length_nil, pyMaxByCount, dedupKeepFirst, List.foldl_nil,
    Option.getD_none, if_pos rfl]
  refine TimingProfile.mk.injEq .. ▸ ⟨rfl, rfl, rfl, rfl, ?_, rfl⟩
  split
  · rfl
  · rw [Nat.cast_zero, zero_div]

/-- Claim C6 witness: the empty conversation group gets the default profile. -/
theorem C6_witness :
    (∀ e ∈ ([] : List EmailMetadata), pyIn (pyLower "me@y.com") (pyLower e.sender) = true) ∧
    timingPatternFor "me@y.com" "UTC" [] =
      { preferred_hour := 10, preferred_day := "tuesday", avg_response_hours := 24,
        total_replies := 0, response_rate := 0, timezone := "UTC" } :=
  ⟨fun e he => absurd he (List.not_mem_nil e),
   C6_no_reply_defaults "me@y.com" "UTC" [] (fun e he => absurd he (List.not_mem_nil e))⟩

/-! ### Claim C3 -/

/-- Claim C3 (amended): for every strategy actually generated, the recommended
send time equals the generation time plus the offset looked up from the
oracle's timing preference (immediate ↦ +0, within_6h ↦ +0.25 day,
within_24h ↦ +1 day, within_week ↦ +7 days, anything else ↦ +1 day) — and
nothing else: the days-since-last-contact value is computed and then
unconditionally overwritten, so the last-contact date has no effect and no
clamp relative to it applies. -/
theorem C3_recommended_timing (now : Nat) (context : InvestorContext) (res : StrategyResult) :
    (generateInvestorStrategy now context (.ok res)).map CampaignStrategy.recommended_timing =
      some ((now : ℚ) + 1440 * timingMapGet res.optimal_timing) := rfl

/-- The C3 counterexample context: last contact 3 days (4320 minutes) before
the generation time 1000000. -/
def c3ctx : InvestorContext :=
  { email := "a@x.com", relationship_stage := "warm", last_contact_date := some 995680,
    total_emails_sent := 3, total_replies_received := 2 }

/-- Claim C3 counterexample: with last contact under a week before generation
(3 days) and oracle preference "within_week", the code schedules now + 7 days
= last contact + 10 days, more than 7 days past the last contact — the
claimed clamp does not exist (the days-since-contact computation is dead
code).  Changing the last-contact date changes nothing. -/
theorem C3_counterexample :
    (generateInvestorStrategy 1000000 c3ctx
        (.ok { optimal_timing := some "within_week" })).map CampaignStrategy.recommended_timing =
      some 1010080 ∧
    Int.fdiv ((1000000 : ℤ) - 995680) 1440 < 7 ∧
    ¬ ((1010080 : ℚ) ≤ 995680 + 7 * 1440) ∧
    (generateInvestorStrategy 1000000 { c3ctx with last_contact_date := some 0 }
        (.ok { optimal_timing := some "within_week" })).map CampaignStrategy.recommended_timing =
      some 1010080 := by
  refine ⟨by with_unfolding_all rfl, by decide, by norm_num, by with_unfolding_all rfl⟩

/-! ### Claim C4 -/

/-- Claim C4 (amended): the decision table actually implemented, in priority
order — deferred with a defer date ↦ follow_up; cold or unknown ↦
cold_outreach; declined ↦ re_engagement; zero replies after at least one
outreach (and none of the previous rows) ↦ re_engagement; warm, engaged or
interested (with some reply or no outreach) ↦ milestone_update; everything
else ↦ follow_up. -/
theorem C4_strategy_type_table (ctx : InvestorContext) :
    (ctx.relationship_stage = "deferred" ∧ ctx.defer_until.isSome →
      determineStrategyType ctx = "follow_up") ∧
    (ctx.relationship_stage = "cold" ∨ ctx.relationship_stage = "unknown" →
      determineStrategyType ctx = "cold_outreach") ∧
    (ctx.relationship_stage = "declined" → determineStrategyType ctx = "re_engagement") ∧
    (ctx.total_replies_received = 0 ∧ ctx.total_emails_sent > 0 ∧
      ¬(ctx.relationship_stage = "deferred" ∧ ctx.defer_until.isSome) ∧
      ctx.relationship_stage ≠ "cold" ∧ ctx.relationship_stage ≠ "unknown" →
      determineStrategyType ctx = "re_engagement") ∧
    ((ctx.relationship_stage = "warm" ∨ ctx.relationship_stage = "engaged" ∨
        ctx.relationship_stage = "interested") →
      ¬(ctx.total_replies_received = 0 ∧ ctx.total_emails_sent > 0) →
      determineStrategyType ctx = "milestone_update") ∧
    (¬(ctx.relationship_stage = "deferred" ∧ ctx.defer_until.isSome) →
      ctx.relationship_stage ∉
        (["cold", "unknown", "declined", "warm", "engaged", "interested"] : List String) →
      ¬(ctx.total_replies_received = 0 ∧ ctx.total_emails_sent > 0) →
      determineStrategyType ctx = "follow_up") := by
  refine ⟨?_, ?_, ?_, ?_, ?_, ?_⟩
  · intro h
    simp [determineStrategyType, h.1, h.2]
  · intro h
    rcases h with h | h <;> simp [determineStrategyType, h]
  · intro h
    simp [determineStrategyType, h]
  · intro h
    obtain ⟨hr, hs, hnd, hc, hu⟩ := h
    by_cases hdec : ctx.relationship_stage = "declined"
    · simp [determineStrategyType, hdec]
    · simp [determineStrategyType, hr, hs, hnd, hc, hu, hdec]
  · intro h hn
    rcases h with h | h | h <;> simp [determineStrategyType, h, hn]
  · intro h1 h2 h3
    simp only [List.mem_cons, not_or] at h2
    simp [determineStrategyType, h1, h2.1, h2.2.1, h2.2.2.1, h2.2.2.2.1, h2.2.2.2.2.1,
      h2.2.2.2.2.2.1, h3]

/-- Claim C4 witness: a warm-stage context with one outreach email and zero
replies falls into the zero-reply row and gets re_engagement (not
milestone_update), per the amended table. -/
theorem C4_witness :
    determineStrategyType
      { email := "a@x.com", relationship_stage := "warm", total_emails_sent := 1,
        total_replies_received := 0 } = "re_engagement" :=
  (C4_strategy_type_table _).2.2.2.1 (by refine ⟨rfl, by decide, by decide, by decide, by decide⟩)

/-- Claim C4 counterexample: as written the claim requires every zero-reply
context with at least one outreach to get re_engagement, and every warm,
engaged or interested context to get milestone_update; but a cold-stage
context with one outreach and zero replies gets cold_outreach, and a
warm-stage context with one outreach and zero replies gets re_engagement. -/
theorem C4_counterexample :
    determineStrategyType
        { email := "a@x.com", relationship_stage := "cold", total_emails_sent := 1,
          total_replies_received := 0 } = "cold_outreach" ∧
    "cold_outreach" ≠ "re_engagement" ∧
    determineStrategyType
        { email := "b@x.com", relationship_stage := "warm", total_emails_sent := 1,
          total_replies_received := 0 } = "re_engagement" ∧
    "re_engagement" ≠ "milestone_update" := by
  refine ⟨by decide, by decide, by decide, by decide⟩

/-! ### Claim C2 -/

/-- The per-counterparty reply rate (received divided by sent, zero-guarded),
as the pipeline reports it for a context (the strategy and report prompts
format `total_replies_received/total_emails_sent` with the same guard). -/
def ctxReplyRate (context : InvestorContext) : ℚ :=
  if context.total_emails_sent > 0 then
    (context.total_replies_received : ℚ) / (context.total_emails_sent : ℚ)
  else 0

/-- Claim C2 (amended): every reply rate the pipeline computes is nonnegative
and equals 0 when the corresponding sent-count is 0 (the division is guarded,
so no division-by-zero failure is possible); the rate is not bounded by 1,
because a context can have more messages received than sent, and it is also 0
whenever nothing was received even with a positive sent-count. -/
theorem C2_reply_rate_bounds (st : FundraisingState) (context : InvestorContext) :
    (0 ≤ (analyzeStrategyEffectivenessNode st).strategy_effectiveness.overall_reply_rate) ∧
    ((st.investor_contexts.map (fun kv => kv.2.total_emails_sent)).sum = 0 →
      (analyzeStrategyEffectivenessNode st).strategy_effectiveness.overall_reply_rate = 0) ∧
    (0 ≤ ctxReplyRate context) ∧
    (context.total_emails_sent = 0 → ctxReplyRate context = 0) ∧
    (context.total_replies_received = 0 → ctxReplyRate context = 0) := by
  refine ⟨?_, ?_, ?_, ?_, ?_⟩
  · simp only [analyzeStrategyEffectivenessNode]
    split
    · exact div_nonneg (Nat.cast_nonneg _) (Nat.cast_nonneg _)
    · exact le_refl 0
  · intro h
    simp only [analyzeStrategyEffectivenessNode]
    rw [if_neg (by omega)]
  · unfold ctxReplyRate
    split
    · exact div_nonneg (Nat.cast_nonneg _) (Nat.cast_nonneg _)
    · exact le_refl 0
  · intro h
    unfold ctxReplyRate
    rw [if_neg (by omega)]
  · intro h
    unfold ctxReplyRate
    split
    · rw [h, Nat.cast_zero, zero_div]
    · rfl

/-- The C2 high-rate context: one email sent, two replies received (exactly
what the analysis node computes for a group with one outbound and two inbound
messages). -/
def c2hi : InvestorContext :=
  { email := "a@x.com", total_emails_sent := 1, total_replies_received := 2 }

/-- The C2 zero-rate context: two emails sent, nothing received. -/
def c2lo : InvestorContext :=
  { email := "b@x.com", total_emails_sent := 2, total_replies_received := 0 }

/-- A C2 outbound message for reachability of `c2hi`'s counts. -/
def c2m1 : EmailMetadata :=
  { message_id := "m1", thread_id := "t1", sender := "me@y.com", recipient := "a@x.com",
    timestamp := 1000, is_reply := false, subject := "s", body_content := "b", snippet := "",
    cc := "", is_outbound := true }

/-- First C2 inbound message. -/
def c2m2 : EmailMetadata :=
  { message_id := "m2", thread_id := "t1", sender := "a@x.com", recipient := "me@y.com",
    timestamp := 2000, is_reply := true, subject := "Re: s", body_content := "b", snippet := "",
    cc := "", is_outbound := false }

/-- Second C2 inbound message. -/
def c2m3 : EmailMetadata :=
  { message_id := "m3", thread_id := "t1", sender := "a@x.com", recipient := "me@y.com",
    timestamp := 3000, is_reply := true, subject := "Re: s", body_content := "b", snippet := "",
    cc := "", is_outbound := false }

/-- Claim C2 counterexample: the aggregator's overall reply rate for the
single context `c2hi` is 2, outside [0, 1]; such a context is reachable (one
outbound followed by two inbound messages yields sent = 1, received = 2); and
the rate is 0 for `c2lo` although its sent-count is 2 ≠ 0, refuting the
"equals 0.0 exactly when sent-count is 0" direction as well. -/
theorem C2_counterexample :
    (analyzeStrategyEffectivenessNode
        { investor_contexts := [("a@x.com", c2hi)] }).strategy_effectiveness.overall_reply_rate
      = 2 ∧
    ¬ ((2 : ℚ) ≤ 1) ∧
    (buildContext "me@y.com" "a@x.com" [c2m1, c2m2, c2m3]
        (analysisOf (Except.error "timeout"))).total_emails_sent = 1 ∧
    (buildContext "me@y.com" "a@x.com" [c2m1, c2m2, c2m3]
        (analysisOf (Except.error "timeout"))).total_replies_received = 2 ∧
    ctxReplyRate c2hi = 2 ∧
    (analyzeStrategyEffectivenessNode
        { investor_contexts := [("b@x.com", c2lo)] }).strategy_effectiveness.overall_reply_rate
      = 0 ∧
    c2lo.total_emails_sent ≠ 0 := by
  refine ⟨by with_unfolding_all rfl, by norm_num, by decide, by decide,
    by with_unfolding_all rfl, by with_unfolding_all rfl, by decide⟩

/-- The C2 witness state: its single context has sent-count 0. -/
def c2wst : FundraisingState :=
  { investor_contexts := [("a@x.com", { email := "a@x.com" })] }

/-- Claim C2 witness: at a state whose single context has sent-count 0, the
overall reply rate is 0, and the per-counterparty rate of a fresh context is
0 as well. -/
theorem C2_witness :
    (0 ≤ (analyzeStrategyEffectivenessNode c2wst).strategy_effectiveness.overall_reply_rate) ∧
    (analyzeStrategyEffectivenessNode c2wst).strategy_effectiveness.overall_reply_rate = 0 ∧
    ctxReplyRate { email := "a@x.com" } = 0 := by
  have h := C2_reply_rate_bounds c2wst { email := "a@x.com" }
  exact ⟨h.1, h.2.1 (by decide), h.2.2.2.1 (by decide)⟩

/-! ### Claims C8 and C9: the conversation grouper -/

/-- Invariant of the accumulating group map: every key is nonempty, differs
from the operator's lower-cased address, owns a nonempty message list, and is
exactly the derived counterparty of each of its messages. -/
def GoodGroups (u : String) (gs : List (String × List EmailMetadata)) : Prop :=
  ∀ kv ∈ gs, kv.1 ≠ "" ∧ kv.1 ≠ pyLower u ∧ kv.2 ≠ [] ∧ ∀ e ∈ kv.2, derivedKey u e = kv.1

theorem goodGroups_alistAppend {u k : String} {e : EmailMetadata}
    {gs : List (String × List EmailMetadata)} (h : GoodGroups u gs) (hk1 : k ≠ "")
    (hk2 : k ≠ pyLower u) (hke : derivedKey u e = k) : GoodGroups u (alistAppend gs k e) := by
  induction gs with
  | nil =>
    intro kv hkv
    simp only [alistAppend, List.mem_singleton] at hkv
    subst hkv
    refine ⟨hk1, hk2, by simp, ?_⟩
    intro e' he'
    simp only [List.mem_singleton] at he'
    subst he'
    exact hke
  | cons hd tl ih =>
    obtain ⟨k', es⟩ := hd
    intro kv hkv
    by_cases heq : k' = k
    · simp only [alistAppend, if_pos heq] at hkv
      rcases List.mem_cons.mp hkv with h1 | h1
      · subst h1
        have hh := h (k', es) (List.mem_cons_self _ _)
        refine ⟨hh.1, hh.2.1, by simp, ?_⟩
        intro e' he'
        rcases List.mem_append.mp he' with h2 | h2
        · exact hh.2.2.2 e' h2
        · simp only [List.mem_singleton] at h2
          subst h2
          rw [hke, heq]
      · exact h kv (List.mem_cons_of_mem _ h1)
    · simp only [alistAppend, if_neg heq] at hkv
      rcases List.mem_cons.mp hkv with h1 | h1
      · subst h1
        exact h (k', es) (List.mem_cons_self _ _)
      · exact ih (fun kv' hkv' => h kv' (List.mem_cons_of_mem _ hkv')) kv h1

theorem goodGroups_groupStep {u : String} {gs : List (String × List EmailMetadata)}
    {e : EmailMetadata} (h : GoodGroups u gs) : GoodGroups u (groupStep u gs e) := by
  unfold groupStep
  by_cases hc : derivedKey u e ≠ "" ∧ derivedKey u e ≠ pyLower u
  · rw [if_pos hc]
    exact goodGroups_alistAppend h hc.1 hc.2 rfl
  · rw [if_neg hc]
    exact h

theorem goodGroups_foldl {u : String} (l : List EmailMetadata) :
    ∀ gs : List (String × List EmailMetadata), GoodGroups u gs →
      GoodGroups u (l.foldl (groupStep u) gs) := by
  induction l with
  | nil => exact fun gs h => h
  | cons x xs ih =>
    intro gs h
    simp only [List.foldl_cons]
    exact ih _ (goodGroups_groupStep h)

theorem groupThreads_good {st : FundraisingState} {k : String} {g : List EmailMetadata}
    (h : (k, g) ∈ (groupThreadsNode st).thread_groups) :
    k ≠ "" ∧ k ≠ pyLower st.user_email ∧ g ≠ [] ∧ ∀ e ∈ g, derivedKey st.user_email e = k := by
  simp only [groupThreadsNode, List.mem_map] at h
  obtain ⟨kv, hkv, heq⟩ := h
  have hgood := goodGroups_foldl st.email_metadata [] (by intro kv h; cases h) kv hkv
  obtain ⟨h1, h2, h3, h4⟩ := hgood
  have hk : kv.1 = k := congrArg Prod.fst heq
  have hg : sortByTime kv.2 = g := congrArg Prod.snd heq
  subst hk hg
  refine ⟨h1, h2, ?_, ?_⟩
  · obtain ⟨x, hx⟩ := List.exists_mem_of_ne_nil kv.2 h3
    exact List.ne_nil_of_mem (mem_sortByTime.mpr hx)
  · intro e he
    exact h4 e (mem_sortByTime.mp he)

/-- The derived counterparty identity is always lower-case fixed. -/
theorem pyLower_derivedKey (u : String) (e : EmailMetadata) :
    pyLower (derivedKey u e) = derivedKey u e := by
  unfold derivedKey
  split <;> exact pyLower_extractEmail _

/-- Claim C8: every key of the conversation-group map is a lower-cased
identity and never equals the operator's own mailbox, also when compared
case-insensitively; messages whose derived counterparty is the operator's own
address were dropped (the key differs from the lower-cased operator
address). -/
theorem C8_group_keys_not_operator (st : FundraisingState) (k : String)
    (g : List EmailMetadata) (h : (k, g) ∈ (groupThreadsNode st).thread_groups) :
    pyLower k = k ∧ k ≠ pyLower st.user_email ∧ pyLower k ≠ pyLower st.user_email := by
  obtain ⟨h1, h2, h3, h4⟩ := groupThreads_good h
  obtain ⟨e, he⟩ := List.exists_mem_of_ne_nil g h3
  have hlow : pyLower k = k := by
    rw [← h4 e he]
    exact pyLower_derivedKey _ _
  exact ⟨hlow, h2, hlow.symm ▸ h2⟩

/-- The C8 witness self-mail (derived counterparty is the operator: dropped). -/
def c8self : EmailMetadata :=
  { message_id := "m1", thread_id := "t1", sender := "me@y.com", recipient := "me@y.com",
    timestamp := 100, is_reply := false, subject := "note", body_content := "b", snippet := "",
    cc := "", is_outbound := true }

/-- The C8 witness inbound message with a display-name header and mixed-case
address. -/
def c8in : EmailMetadata :=
  { message_id := "m2", thread_id := "t1", sender := "Bob <A@X.com>", recipient := "Me@Y.com",
    timestamp := 200, is_reply := false, subject := "hi", body_content := "b", snippet := "",
    cc := "", is_outbound := false }

/-- The C8 witness state (mixed-case operator address). -/
def c8st : FundraisingState :=
  { user_email := "Me@Y.com", email_metadata := [c8self, c8in] }

/-- Claim C8 witness: in the concrete run the self-mail is dropped, the group
key is the lower-cased counterparty address, and it differs from the
operator's mailbox case-insensitively. -/
theorem C8_witness :
    ("a@x.com", [c8in]) ∈ (groupThreadsNode c8st).thread_groups ∧
    pyLower "a@x.com" = "a@x.com" ∧ "a@x.com" ≠ pyLower c8st.user_email ∧
    pyLower "a@x.com" ≠ pyLower c8st.user_email ∧
    (groupThreadsNode c8st).thread_groups.length = 1 := by
  have hmem : ("a@x.com", [c8in]) ∈ (groupThreadsNode c8st).thread_groups := by decide
  have h := C8_group_keys_not_operator c8st "a@x.com" [c8in] hmem
  exact ⟨hmem, h.1, h.2.1, h.2.2, by decide⟩

/-- Claim C9: (1) when a header field contains no substring matching the
extraction regex, identity extraction returns the whole field lower-cased and
stripped — a group key need not be a well-formed address; (2) every message in
a group has its derived counterparty equal to the group key, and its relevant
header field (recipient for outbound, sender otherwise) is nonempty — a
message whose relevant field is empty is in no group. -/
theorem C9_extract_email_fallback :
    (∀ field : String, reSearch emailExtractPat field = none →
      extractEmail field = pyStrip (pyLower field)) ∧
    (∀ (st : FundraisingState) (k : String) (g : List EmailMetadata) (e : EmailMetadata),
      (k, g) ∈ (groupThreadsNode st).thread_groups → e ∈ g →
      derivedKey st.user_email e = k ∧
      (if pyIn (pyLower st.user_email) (pyLower e.sender) then e.recipient else e.sender) ≠ "") := by
  constructor
  · intro field hsearch
    unfold extractEmail
    by_cases hf : field = ""
    · subst hf
      rfl
    · rw [if_neg hf, hsearch]
  · intro st k g e hg he
    obtain ⟨h1, _, _, h4⟩ := groupThreads_good hg
    refine ⟨h4 e he, ?_⟩
    intro hfield
    apply h1
    rw [← h4 e he]
    unfold derivedKey
    by_cases hc : pyIn (pyLower st.user_email) (pyLower e.sender) = true
    · rw [if_pos hc] at hfield ⊢
      rw [hfield]
      rfl
    · rw [if_neg hc] at hfield ⊢
      rw [hfield]
      rfl

/-- The C9 witness message: a display-name-only sender header. -/
def c9in : EmailMetadata :=
  { message_id := "m1", thread_id := "t1", sender := "Just A Name", recipient := "me@y.com",
    timestamp := 100, is_reply := false, subject := "hi", body_content := "b", snippet := "",
    cc := "", is_outbound := false }

/-- The C9 witness state. -/
def c9st : FundraisingState :=
  { user_email := "me@y.com", email_metadata := [c9in] }

/-- Claim C9 witness: a sender header with no email address grows a group
under the whole lower-cased stripped header, which is not a well-formed
address, and the relevant header field of the grouped message is nonempty. -/
theorem C9_witness :
    reSearch emailExtractPat "Just A Name" = none ∧
    extractEmail "Just A Name" = pyStrip (pyLower "Just A Name") ∧
    extractEmail "Just A Name" = "just a name" ∧
    ("just a name", [c9in]) ∈ (groupThreadsNode c9st).thread_groups ∧
    derivedKey c9st.user_email c9in = "just a name" ∧
    (if pyIn (pyLower c9st.user_email) (pyLower c9in.sender) then c9in.recipient
      else c9in.sender) ≠ "" := by
  have hs : reSearch emailExtractPat "Just A Name" = none := by decide
  have hmem : ("just a name", [c9in]) ∈ (groupThreadsNode c9st).thread_groups := by decide
  have h2 := C9_extract_email_fallback.2 c9st "just a name" [c9in] c9in hmem
    (List.mem_singleton.mpr rfl)
  exact ⟨hs, C9_extract_email_fallback.1 "Just A Name" hs, by decide, hmem, h2.1, h2.2⟩

/-! ### Claim C7: run-scoped sanitizer consistency -/

/-- One text sanitized within a run: thread the run's shared identity map and
collect the sanitized output (as `_build_conversation_text` does for each
header and body it sanitizes). -/
def sanitizeStep (acc : List (String × String) × List String) (c : String) :
    List (String × String) × List String :=
  let r := anonymizeEmailContent c acc.1
  (r.1, acc.2 ++ [r.2])

/-- One pipeline run's sanitizer usage: the identity map starts empty and is
shared across every text sanitized in the run. -/
def sanitizeRun (contents : List String) : List (String × String) × List String :=
  contents.foldl sanitizeStep ([], [])

/-- Every binding of the identity map sends an address to its content-derived
hash placeholder. -/
def MapGood (m : List (String × String)) : Prop :=
  ∀ e v, alistGet? m e = some v → v = emailPlaceholder e

theorem alistGet?_append {β : Type} (m m' : List (String × β)) (k : String) :
    alistGet? (m ++ m') k =
      match alistGet? m k with
      | some v => some v
      | none => alistGet? m' k := by
  induction m with
  | nil => rfl
  | cons hd tl ih =>
    obtain ⟨k', v'⟩ := hd
    by_cases hk : k' = k
    · simp [alistGet?, hk]
    · simp only [List.cons_append, alistGet?, if_neg hk]
      exact ih

theorem mapGood_anonStep {acc : List (String × String) × String} {email : String}
    (h : MapGood acc.1) : MapGood (anonStep acc email).1 := by
  unfold anonStep
  by_cases hs : (alistGet? acc.1 email).isSome
  · simpa [hs] using h
  · simp only [hs, if_false, Bool.false_eq_true]
    intro e v hv
    rw [alistGet?_append] at hv
    cases hcase : alistGet? acc.1 e with
    | some w =>
      rw [hcase] at hv
      injection hv with hv
      exact hv ▸ h e w hcase
    | none =>
      rw [hcase] at hv
      simp only [alistGet?] at hv
      by_cases he : email = e
      · rw [if_pos he] at hv
        injection hv with hv
        rw [← hv, he]
      · rw [if_neg he] at hv
        cases hv

theorem mapGood_anonFold (emails : List String) :
    ∀ acc : List (String × String) × String, MapGood acc.1 →
      MapGood (emails.foldl anonStep acc).1 := by
  induction emails with
  | nil => exact fun acc h => h
  | cons x xs ih =>
    intro acc h
    simp only [List.foldl_cons]
    exact ih _ (mapGood_anonStep h)

theorem mapGood_anonymize {c : String} {m : List (String × String)} (h : MapGood m) :
    MapGood (anonymizeEmailContent c m).1 := by
  unfold anonymizeEmailContent
  by_cases hc : c = ""
  · rw [if_pos hc]
    exact h
  · rw [if_neg hc]
    exact mapGood_anonFold (reFindall emailAnonPat c) (m, c) h

theorem mapGood_sanitizeFold (contents : List String) :
    ∀ acc : List (String × String) × List String, MapGood acc.1 →
      MapGood (contents.foldl sanitizeStep acc).1 := by
  induction contents with
  | nil => exact fun acc h => h
  | cons x xs ih =>
    intro acc h
    simp only [List.foldl_cons]
    exact ih _ (mapGood_anonymize h)

/-- Claim C7: within one run (one shared identity map, starting empty), every
placeholder the sanitizer ever associates to an email-address token equals
`"[EMAIL_" ++ md5(token)[:6] ++ "]"` — a pure function of the token's content,
not of a running counter or of the order of sanitizations — so sanitizing the
same literal address any number of times yields the same placeholder every
time. -/
theorem C7_placeholder_consistency (contents : List String) (e v : String)
    (h : alistGet? (sanitizeRun contents).1 e = some v) : v = emailPlaceholder e :=
  mapGood_sanitizeFold contents ([], []) (fun _ _ hv => by cases hv) e v h

set_option maxHeartbeats 4000000 in
set_option maxRecDepth 100000 in
/-- Claim C7 witness: a run sanitizing a@x.com twice maps it to the md5-derived
placeholder `[EMAIL_743173]` both times, and a different address gets a
different placeholder. -/
theorem C7_witness :
    alistGet? (sanitizeRun ["contact a@x.com please", "again a@x.com and b@y.com"]).1 "a@x.com" =
      some "[EMAIL_743173]" ∧
    "[EMAIL_743173]" = emailPlaceholder "a@x.com" ∧
    (sanitizeRun ["contact a@x.com please", "again a@x.com and b@y.com"]).2 =
      ["contact [EMAIL_743173] please", "again [EMAIL_743173] and [EMAIL_60e125]"] ∧
    emailPlaceholder "a@x.com" ≠ emailPlaceholder "b@y.com" := by
  have h : alistGet?
      (sanitizeRun ["contact a@x.com please", "again a@x.com and b@y.com"]).1 "a@x.com" =
      some "[EMAIL_743173]" := by decide
  exact ⟨h,
    C7_placeholder_consistency ["contact a@x.com please", "again a@x.com and b@y.com"]
      "a@x.com" "[EMAIL_743173]" h,
    by decide, by decide⟩

/-! ### Claim C10: constant placeholders for phones and URLs -/

/-- Join segments with a constant separator (what a constant-replacement
`re.sub` produces from the unmatched gaps). -/
def joinWith (repl : List Char) : List (List Char) → List Char
  | [] => []
  | [g] => g
  | g :: g2 :: gs => g ++ repl ++ joinWith repl (g2 :: gs)

theorem gapsAux_ne_nil (pat : RPattern) (fuel : Nat) (prev : Option Char) (rest : List Char) :
    gapsAux pat fuel prev rest ≠ [] := by
  cases fuel with
  | zero => simp [gapsAux]
  | succ n =>
    cases rest with
    | nil => simp [gapsAux]
    | cons c cs =>
      simp only [gapsAux]
      cases matchAlts pat prev (c :: cs) with
      | none =>
        cases h : gapsAux pat n (some c) cs <;> simp
      | some k =>
        cases k with
        | zero => cases h : gapsAux pat n (some c) cs <;> simp
        | succ j => simp

theorem subAux_eq_joinWith (pat : RPattern) (repl : List Char) (fuel : Nat) :
    ∀ (prev : Option Char) (rest : List Char),
      subAux pat repl fuel prev rest = joinWith repl (gapsAux pat fuel prev rest) := by
  induction fuel with
  | zero => intro prev rest; rfl
  | succ n ih =>
    intro prev rest
    cases rest with
    | nil => rfl
    | cons c cs =>
      simp only [subAux, gapsAux]
      cases hm : matchAlts pat prev (c :: cs) with
      | none =>
        dsimp only
        rw [ih (some c) cs]
        cases hg : gapsAux pat n (some c) cs with
        | nil => exact absurd hg (gapsAux_ne_nil pat n (some c) cs)
        | cons g gs => cases gs <;> rfl
      | some k =>
        cases k with
        | zero =>
          dsimp only
          rw [ih (some c) cs]
          cases hg : gapsAux pat n (some c) cs with
          | nil => exact absurd hg (gapsAux_ne_nil pat n (some c) cs)
          | cons g gs => cases gs <;> rfl
        | succ j =>
          dsimp only
          rw [ih (((c :: cs).take (j + 1)).getLast?) ((c :: cs).drop (j + 1))]
          cases hg : gapsAux pat n (((c :: cs).take (j + 1)).getLast?) ((c :: cs).drop (j + 1)) with
          | nil => exact absurd hg (gapsAux_ne_nil pat n _ _)
          | cons g gs => cases gs <;> rfl

theorem reSubConst_congr {pat : RPattern} {repl : String} {a b : String}
    (h : matchGaps pat a = matchGaps pat b) : reSubConst pat repl a = reSubConst pat repl b := by
  have hinj : Function.Injective String.mk := fun x y hxy => by injection hxy
  have hgaps : gapsAux pat a.data.length none a.data = gapsAux pat b.data.length none b.data :=
    List.map_injective_iff.mpr hinj h
  unfold reSubConst
  rw [subAux_eq_joinWith, subAux_eq_joinWith, hgaps]

theorem anonymize_no_email {c : String} (m : List (String × String))
    (h : reFindall emailAnonPat c = []) :
    anonymizeEmailContent c m =
      (m, sigStages (reSubConst urlPat "[URL_LINK]" (phoneStages c))) := by
  unfold anonymizeEmailContent
  by_cases hc : c = ""
  · subst hc
    rw [if_pos rfl]
    rfl
  · rw [if_neg hc, h]
    rfl

/-- Claim C10: the sanitizer replaces every phone-number match and every URL
match by the fixed constants `[PHONE_NUMBER]` and `[URL_LINK]` (per-entity
hashed placeholders exist only for email addresses), so two email-free texts
whose unmatched gap structure agrees — texts that differ only in which phone
numbers or URLs they contain — sanitize to identical output, and the distinct
originals cannot be told apart downstream. -/
theorem C10_constant_placeholder_indistinguishability (s1 s2 : String)
    (m : List (String × String)) (h1 : reFindall emailAnonPat s1 = [])
    (h2 : reFindall emailAnonPat s2 = [])
    (hsk : matchGaps urlPat (phoneStages s1) = matchGaps urlPat (phoneStages s2)) :
    anonymizeEmailContent s1 m = anonymizeEmailContent s2 m := by
  rw [anonymize_no_email m h1, anonymize_no_email m h2]
  exact congrArg (fun t => (m, sigStages t)) (reSubConst_congr hsk)

/-- The first C10 text. -/
def c10s1 : String := "call 555-123-4567 or see https://alpha.example/deck soon"

/-- The second C10 text: same gaps, different phone number and URL. -/
def c10s2 : String := "call 555-987-0000 or see https://omega.example/memo soon"

set_option maxHeartbeats 4000000 in
set_option maxRecDepth 100000 in
/-- Claim C10 witness: the two texts differ only in their phone number and
URL; both sanitize to the very same output, so the originals are
indistinguishable downstream. -/
theorem C10_witness :
    c10s1 ≠ c10s2 ∧
    reFindall emailAnonPat c10s1 = [] ∧ reFindall emailAnonPat c10s2 = [] ∧
    matchGaps urlPat (phoneStages c10s1) = matchGaps urlPat (phoneStages c10s2) ∧
    anonymizeEmailContent c10s1 [] = anonymizeEmailContent c10s2 [] ∧
    (anonymizeEmailContent c10s1 []).2 =
      "call [PHONE_NUMBER] or see [URL_LINK] soon" := by
  have h1 : reFindall emailAnonPat c10s1 = [] := by decide
  have h2 : reFindall emailAnonPat c10s2 = [] := by decide
  have hsk : matchGaps urlPat (phoneStages c10s1) = matchGaps urlPat (phoneStages c10s2) := by
    decide
  exact ⟨by decide, h1, h2, hsk,
    C10_constant_placeholder_indistinguishability c10s1 c10s2 [] h1 h2 hsk, by decide⟩

/-! ### Claim C1: error accounting across the pipeline -/

/-- Claim C1 (amended): for every pipeline run and all oracle behaviours, the
terminal state's error list equals the initial one — a failed analysis or
strategy oracle call adds no entry, because `_analyze_investor_conversation`
and `_generate_investor_strategy` swallow their own failures (print, then
return the empty analysis / `None`), so the per-counterparty handlers that
would record an error are never reached from an oracle failure; the run
always reaches the terminal state; and a counterparty whose analysis call
failed still gets a context with relationship stage "unknown" and empty
interest/objection/question/material lists. -/
theorem C1_oracle_failures_swallowed (oracleA : String → Except String Analysis)
    (oracleS : String → Except String StrategyResult) (oracleR : Except String String)
    (tz : String) (now : Nat) (st : FundraisingState) :
    (runPipeline oracleA oracleS oracleR tz now st).errors = st.errors ∧
    (runPipeline oracleA oracleS oracleR tz now st).current_step =
      "generating_retrospective" ∧
    ∀ (inv : String) (ctx : InvestorContext) (err : String),
      (inv, ctx) ∈ (runPipeline oracleA oracleS oracleR tz now st).investor_contexts →
      oracleA inv = .error err →
      ctx.relationship_stage = "unknown" ∧ ctx.key_interests = [] ∧
      ctx.objections_raised = [] ∧ ctx.questions_asked = [] ∧ ctx.materials_shared = [] := by
  refine ⟨rfl, rfl, ?_⟩
  intro inv ctx err hmem horacle
  have hmem' : (inv, ctx) ∈ (analyzeConversationsNode oracleA
      (groupThreadsNode st)).investor_contexts := hmem
  simp only [analyzeConversationsNode, List.mem_map] at hmem'
  obtain ⟨kv, _, heq⟩ := hmem'
  have hinv : kv.1 = inv := congrArg Prod.fst heq
  have hctx : buildContext (groupThreadsNode st).user_email kv.1 kv.2
      (analysisOf (oracleA kv.1)) = ctx := congrArg Prod.snd heq
  rw [hinv] at hctx
  rw [horacle] at hctx
  rw [← hctx]
  exact ⟨rfl, rfl, rfl, rfl, rfl⟩

/-- The C1 outbound message. -/
def c1m1 : EmailMetadata :=
  { message_id := "m1", thread_id := "t1", sender := "me@y.com", recipient := "a@x.com",
    timestamp := 6300, is_reply := false, subject := "intro", body_content := "hello",
    snippet := "", cc := "", is_outbound := true }

/-- The C1 inbound message. -/
def c1m2 : EmailMetadata :=
  { message_id := "m2", thread_id := "t1", sender := "a@x.com", recipient := "me@y.com",
    timestamp := 6420, is_reply := true, subject := "Re: intro", body_content := "thanks",
    snippet := "", cc := "", is_outbound := false }

/-- The C1 initial state: one counterparty conversation, no prior errors. -/
def c1st : FundraisingState :=
  { user_email := "me@y.com", email_metadata := [c1m1, c1m2] }

/-- The C1 conversation-analysis oracle: times out for every counterparty. -/
def c1oa : String → Except String Analysis := fun _ => .error "timeout"

/-- The C1 strategy oracle: always succeeds. -/
def c1os : String → Except String StrategyResult :=
  fun _ => .ok { optimal_timing := some "within_24h" }

/-- The C1 retrospective oracle: succeeds. -/
def c1or : Except String String := .ok "RETROSPECTIVE"

/-- The context the C1 run builds for its single counterparty. -/
def c1ctx : InvestorContext :=
  buildContext "me@y.com" "a@x.com" (sortByTime [c1m1, c1m2]) (analysisOf (c1oa "a@x.com"))

set_option maxRecDepth 40000 in
set_option maxRecDepth 40000 in
/-- Claim C1 counterexample: a run with exactly one counterparty whose
conversation-analysis oracle call fails (every other oracle call succeeds)
terminates with an empty error list — zero entries, not the one entry per
failed oracle call that the claim requires — while the counterparty's context
does default to stage "unknown". -/
theorem C1_counterexample :
    c1oa "a@x.com" = .error "timeout" ∧
    (runPipeline c1oa c1os c1or "UTC" 20000 c1st).thread_groups.length = 1 ∧
    (runPipeline c1oa c1os c1or "UTC" 20000 c1st).errors.length = 0 ∧
    ¬ ((runPipeline c1oa c1os c1or "UTC" 20000 c1st).errors.length = 1) ∧
    (runPipeline c1oa c1os c1or "UTC" 20000 c1st).current_step =
      "generating_retrospective" := by
  refine ⟨rfl, by decide, by decide, by decide, by decide⟩

/-- Claim C1 witness: in the concrete failed-analysis run the terminal error
list is empty (it equals the initial, empty one), the terminal state is
reached, and the affected counterparty's context has stage "unknown" with
empty lists. -/
theorem C1_witness :
    (runPipeline c1oa c1os c1or "UTC" 20000 c1st).errors = [] ∧
    c1ctx.relationship_stage = "unknown" ∧ c1ctx.key_interests = [] ∧
    c1ctx.objections_raised = [] ∧ c1ctx.questions_asked = [] ∧
    c1ctx.materials_shared = [] := by
  have h := C1_oracle_failures_swallowed c1oa c1os c1or "UTC" 20000 c1st
  have hctxs : (runPipeline c1oa c1os c1or "UTC" 20000 c1st).investor_contexts =
      [("a@x.com", c1ctx)] := by with_unfolding_all rfl
  have hmem : ("a@x.com", c1ctx) ∈
      (runPipeline c1oa c1os c1or "UTC" 20000 c1st).investor_contexts := by
    rw [hctxs]
    exact List.mem_singleton.mpr rfl
  exact ⟨h.1, h.2.2 "a@x.com" c1ctx "timeout" hmem rfl⟩

end FundIntel
